import Mathlib

/-!
Verification development for the prompt-context retrieval engine of the
Concerto VS Code web extension (`agentPlanner.ts` and `embeddingsUtils.ts` of
the language server, plus the shared `types.ts`).

JavaScript strings are modelled as Lean `String` (a wrapper around
`List Char`); JavaScript `undefined` for a string-valued expression is
modelled as `Option String` with `none` for `undefined`.  Thrown `Error`s are
modelled with `Except String`, carrying the error message.
-/

namespace ConcertoCopilot

deriving instance DecidableEq for Except

/-! ## JavaScript string primitives -/

/-- JS template-literal interpolation of a possibly-`undefined` string value:
`` `${x}` `` renders `undefined` as the literal string `"undefined"`. -/
def jsStr : Option String → String
  | none => "undefined"
  | some s => s

/-- JS truthiness test `!x` for a possibly-`undefined` string value:
`undefined` and the empty string are falsy. -/
def jsFalsy : Option String → Bool
  | none => true
  | some s => s == ""

/-- JS `s.slice(0, n)` for `0 ≤ n` (clamped at the end of the string). -/
def strTake (s : String) (n : Nat) : String := ⟨s.data.take n⟩

/-- JS `s.slice(n)` for `0 ≤ n` (clamped at the end of the string). -/
def strDrop (s : String) (n : Nat) : String := ⟨s.data.drop n⟩

/-- Helper for `jsReplaceFirst`: replace the first occurrence of `pat` in the
character list by `rep` (JS `String.prototype.replace` with a string pattern
replaces only the first occurrence; an empty pattern matches at the start). -/
def replaceFirstAux (pat rep : List Char) : List Char → List Char
  | [] => if pat.isEmpty then rep else []
  | c :: rest =>
    if pat.isPrefixOf (c :: rest) then rep ++ (c :: rest).drop pat.length
    else c :: replaceFirstAux pat rep rest

/-- JS `s.replace(pat, rep)` with a *string* pattern: only the first
occurrence of `pat` is replaced. -/
def jsReplaceFirst (s pat rep : String) : String :=
  ⟨replaceFirstAux pat.data rep.data s.data⟩

/-- Helper for `jsReplaceImportLines`, scanning left to right with fuel
(`fuel ≥` length of the remaining list keeps the scan exact).  At each
position, the regex `/import .*\n/` matches iff the text starts with
`"import "` and a `'\n'` occurs later; `.` does not match `'\n'`, so the
match extends exactly through the first newline.  On a match the whole match
is dropped (replacement by the empty string) and scanning resumes after it;
otherwise the scan advances one character. -/
def stripImportLinesAux : Nat → List Char → List Char
  | 0, l => l
  | _ + 1, [] => []
  | fuel + 1, c :: rest =>
    if "import ".data.isPrefixOf (c :: rest) then
      match ((c :: rest).drop 7).dropWhile (fun ch => !(ch == '\n')) with
      | '\n' :: after => stripImportLinesAux fuel after
      | _ => c :: stripImportLinesAux fuel rest
    else c :: stripImportLinesAux fuel rest

/-- JS `s.replace(/import .*\n/g, '')`: delete every (non-overlapping)
occurrence of `"import "` followed by the rest of its line *including* the
terminating newline.  A final import line with no trailing newline is not
matched by the regex and is kept. -/
def jsReplaceImportLines (s : String) : String :=
  ⟨stripImportLinesAux s.data.length s.data⟩

/-- JS `values.join(', ')`. -/
def joinComma : List String → String
  | [] => ""
  | [v] => v
  | v :: vs => v ++ ", " ++ joinComma vs

/-! ## Data model (`client/src/copilot/types.ts` and the server's documents) -/

/-- An auxiliary context document: a file-name key plus its (possibly
`undefined`) text content. -/
structure ContextDocument where
  fileName : String
  content : Option String
deriving DecidableEq

/-- `DocumentDetails` from `types.ts`: the main document's text and cursor
offset.  The planner treats a falsy `cursorPosition` (absent or `0`) as
end-of-content, so it is modelled as an optional natural. -/
structure DocumentDetails where
  content : String
  cursorPosition : Option Nat
deriving DecidableEq

/-- The `Documents` bundle handed to the planner: the main document plus the
optional list of auxiliary context documents. -/
structure Documents where
  main : DocumentDetails
  contextDocuments : Option (List ContextDocument)
deriving DecidableEq

/-- `PromptConfig` from `types.ts`: request type (a string), target language,
optional free-text instruction. -/
structure PromptConfig where
  requestType : String
  language : String
  instruction : Option String
deriving DecidableEq

/-- `ModelConfig` from `types.ts` (the fields the planner reads). -/
structure ModelConfig where
  provider : String
  llmModel : String
  apiUrl : String
  accessToken : String
deriving DecidableEq

/-- Modelled from the spec: the `RequestType` string enumeration
(Inline, Fix, General, Model, Grammar).  The enum module itself
(`server/src/copilot/utils/types.ts`) is not among the sources; the values
follow the lowercase string literals `'model'` / `'grammar'` that
`generateEmbeddingPrompt` compares request types against. -/
def RequestType.Inline : String := "inline"

def RequestType.Fix : String := "fix"

def RequestType.General : String := "general"

def RequestType.Model : String := "model"

def RequestType.Grammar : String := "grammar"

/-- Modelled from the spec: the `Language` enumeration (Concerto vs. generic);
only the Concerto value is dispatched on. -/
def Language.Concerto : String := "concerto"

/-! ## Context Extractor (`embeddingsUtils.ts`, `generateEmbeddingPrompt`) -/

/-- JS `contextDocuments?.find(doc => doc.fileName === fileName)?.content`. -/
def findContent (contextDocuments : Option (List ContextDocument)) (name : String) :
    Option String :=
  (contextDocuments.bind fun docs => docs.find? fun d => d.fileName == name).bind
    ContextDocument.content

/-- `generateEmbeddingPrompt(documents, requestType)`: builds the embedding
query.  `requestType` is `Option String` because the in-repository caller
`modelRequestPrompt` invokes the function without the second argument, so the
parameter can be `undefined` at run time. -/
def generateEmbeddingPrompt (documents : Documents) (requestType : Option String) :
    Except String String :=
  if requestType == some "grammar" then
    Except.ok (jsStr (findContent documents.contextDocuments "sample.md"))
  else if requestType == some "model" then
    let grammarContent := findContent documents.contextDocuments "grammar.tem.md"
    let packageContent := findContent documents.contextDocuments "package.json"
    if jsFalsy grammarContent || jsFalsy packageContent then
      Except.error "Required documents are missing"
    else
      Except.ok (jsStr grammarContent ++ " " ++ jsStr packageContent)
  else
    Except.ok ""

/-! ## Template Assembler (`agentPlanner.ts`) -/

/-- The planner's result: which template renderer was invoked, with the
arguments computed inside the planner.  The renderers themselves
(`promptTemplates/*`) are string-interpolation collaborators outside the
analysed sources, so the constructors record the renderer and its inputs.
For `concertoModel`, `embeddingQuery` is the query string handed to the
embedding network call (`generateEmbeddingsByProvider`) that precedes the
rendering. -/
inductive Prompt where
  | concertoInline (beforeCursor afterCursor : String) (promptConfig : PromptConfig)
  | genericInline (beforeCursor afterCursor : String) (promptConfig : PromptConfig)
  | fix (content : String) (promptConfig : PromptConfig)
  | general (promptConfig : PromptConfig)
  | concertoModel (documents : Documents) (embeddingQuery : String) (provider : String)
  | grammar (documents : Documents)
deriving DecidableEq

/-- The cursor split of `inlineRequestPrompt`:
`if (!cursorPosition) cursorPosition = content.length;` followed by
`content.slice(0, cursorPosition)` / `content.slice(cursorPosition)`.
A falsy cursor position (absent or `0`) defaults to end-of-content. -/
def inlineSplit (content : String) (cursorPosition : Option Nat) : String × String :=
  let pos : Nat :=
    match cursorPosition with
    | none => content.length
    | some p => if p = 0 then content.length else p
  (strTake content pos, strDrop content pos)

/-- `inlineRequestPrompt(documents, promptConfig)`. -/
def inlineRequestPrompt (documents : Documents) (promptConfig : PromptConfig) : Prompt :=
  let s := inlineSplit documents.main.content documents.main.cursorPosition
  if promptConfig.language == Language.Concerto then
    Prompt.concertoInline s.1 s.2 promptConfig
  else
    Prompt.genericInline s.1 s.2 promptConfig

/-- `modelRequestPrompt(documents, config)`.  The source calls
`generateEmbeddingPrompt(documents)` with no second argument, so the
request-type parameter is `undefined` (`none`); the resulting query is then
sent to the embedding provider and `getConcertoModelTemplate` is rendered. -/
def modelRequestPrompt (documents : Documents) (config : ModelConfig) :
    Except String Prompt :=
  (generateEmbeddingPrompt documents none).map fun q =>
    Prompt.concertoModel documents q config.provider

/-- `AgentPlannerParams`: the argument bundle of `agentPlanner`. -/
structure AgentPlannerParams where
  documents : Documents
  promptConfig : PromptConfig
  config : ModelConfig
deriving DecidableEq

/-- `agentPlanner(params)`: dispatch on the request type (a JS `switch` over
the `RequestType` string enumeration, with a throwing `default` branch). -/
def agentPlanner (params : AgentPlannerParams) : Except String Prompt :=
  let documents := params.documents
  let rt := params.promptConfig.requestType
  if rt == RequestType.Inline then
    Except.ok (inlineRequestPrompt documents params.promptConfig)
  else if rt == RequestType.Fix then
    Except.ok (Prompt.fix documents.main.content params.promptConfig)
  else if rt == RequestType.General then
    Except.ok (Prompt.general params.promptConfig)
  else if rt == RequestType.Model then
    modelRequestPrompt documents params.config
  else if rt == RequestType.Grammar then
    Except.ok (Prompt.grammar documents)
  else
    Except.error "Unsupported request type"

/-! ## Similarity Engine (`embeddingsUtils.ts`)

The source scores each corpus entry with
`cosineSimilarity = dot(v1, v2) / (norm(v1) * norm(v2))` computed by `mathjs`
over IEEE floats.  Exact float arithmetic (and the real square root inside
`norm`) is not faithfully embeddable, so embedding vectors are modelled as
rational vectors and the similarity function is an explicit parameter `sim`
of the ranking functions; every ranking theorem below is proved for an
arbitrary `sim`.  Closed (witness/counterexample) statements instantiate
`sim` with `dotProduct`; the claims under scrutiny do not depend on the
numeric values `sim` produces. -/

/-- An embedding vector (modelled over ℚ, see the section comment). -/
abbrev Embedding := List ℚ

/-- The numerator of the source's `cosineSimilarity`: `math.dot(vec1, vec2)`.
Used as the concrete similarity instance in closed statements. -/
def dotProduct (v1 v2 : Embedding) : ℚ :=
  (List.zipWith (fun a b => a * b) v1 v2).sum

/-- One corpus entry of `ModelsEmbeddingsData`: raw file text, file name, and
the per-provider optional embedding.  `geminiEmbedding` collapses the source's
optional chain `obj.gemini?.embeddings?.embedding` (defined iff every level is
defined); `openaiEmbeddings` is `obj.openai?.embeddings`. -/
structure ModelEmbeddings where
  fileContent : String
  fileName : String
  geminiEmbedding : Option Embedding
  openaiEmbeddings : Option Embedding
deriving DecidableEq

/-- The grammar part of a template entry: its text and per-provider optional
embedding (`template.grammar?.embeddings?.gemini?.embedding` and
`template.grammar?.embeddings?.openai`, each collapsed as above). -/
structure GrammarData where
  content : String
  geminiEmbedding : Option Embedding
  openaiEmbeddings : Option Embedding
deriving DecidableEq

/-- The sample part of a template entry. -/
structure SampleData where
  content : String
deriving DecidableEq

/-- One entry of `TemplateEmbeddings`: optional grammar and sample parts. -/
structure TemplateData where
  grammar : Option GrammarData
  sample : Option SampleData
deriving DecidableEq

/-- The provider-conditional embedding selection of `fetchRelevantNamespaces`:
`embeddings` is assigned from the gemini chain when `provider === 'gemini'`,
from `obj.openai?.embeddings` when `provider === 'openai'`, and stays
`undefined` otherwise.  The subsequent
`if (embeddings && Array.isArray(embeddings))` check only tests definedness:
an *empty* stored array is truthy in JS and passes the check. -/
def providerEmbedding (provider : String) (obj : ModelEmbeddings) : Option Embedding :=
  if provider == "gemini" then obj.geminiEmbedding
  else if provider == "openai" then obj.openaiEmbeddings
  else none

/-- The provider-conditional embedding selection shared by
`fetchRelevantTemplates` and `fetchRelevantGrammar` (reading through
`template.grammar`). -/
def templateProviderEmbedding (provider : String) (template : TemplateData) :
    Option Embedding :=
  if provider == "gemini" then template.grammar.bind GrammarData.geminiEmbedding
  else if provider == "openai" then template.grammar.bind GrammarData.openaiEmbeddings
  else none

/-- Descending comparison on the similarity component: entry `a` may precede
entry `b` iff `b.1 ≤ a.1`.  This is the ordering induced by the source's
stable JS sort with comparator `(a, b) => b[0] - a[0]`. -/
def simGE {α : Type} (a b : ℚ × α) : Prop := b.1 ≤ a.1

instance {α : Type} : DecidableRel (@simGE α) :=
  fun a b => inferInstanceAs (Decidable (b.1 ≤ a.1))

instance {α : Type} : IsTotal (ℚ × α) simGE :=
  ⟨fun a b => le_total b.1 a.1⟩

instance {α : Type} : IsTrans (ℚ × α) simGE :=
  ⟨fun _ _ _ h1 h2 => le_trans h2 h1⟩

/-- The JS stable sort `arr.sort((a, b) => b[0] - a[0])`, modelled as a stable
insertion sort under `simGE` (a stable sort's output is determined by the
comparator, so any stable descending sort is a faithful model). -/
def sortBySimDesc {α : Type} (l : List (ℚ × α)) : List (ℚ × α) :=
  List.insertionSort simGE l

/-- The `namespaceSimilarities` accumulation loop of
`fetchRelevantNamespaces`: entries with a defined provider embedding are
scored in corpus order, others are skipped. -/
def namespaceSimilarities (sim : Embedding → Embedding → ℚ)
    (modelNamespaces : List (String × ModelEmbeddings)) (promptEmbedding : Embedding)
    (provider : String) : List (ℚ × String × String) :=
  modelNamespaces.filterMap fun kv =>
    (providerEmbedding provider kv.2).map fun e =>
      (sim promptEmbedding e, kv.1, kv.2.fileContent)

/-- `topNamespaces`: sort descending by similarity, keep the first `topN`. -/
def topNamespaces (sim : Embedding → Embedding → ℚ)
    (modelNamespaces : List (String × ModelEmbeddings)) (promptEmbedding : Embedding)
    (provider : String) (topN : Nat) : List (ℚ × String × String) :=
  (sortBySimDesc (namespaceSimilarities sim modelNamespaces promptEmbedding provider)).take
    topN

/-- `fetchRelevantNamespaces` (default `topN = 4`): renders each selected
entry as `` `${file}\n` ``. -/
def fetchRelevantNamespaces (sim : Embedding → Embedding → ℚ)
    (modelNamespaces : List (String × ModelEmbeddings)) (promptEmbedding : Embedding)
    (provider : String) (topN : Nat := 4) : List String :=
  (topNamespaces sim modelNamespaces promptEmbedding provider topN).map fun t =>
    t.2.1 ++ "\n"

/-- The `templateSimilarities` accumulation loop of `fetchRelevantTemplates`:
scored entries carry `[similarity, templateName, template.grammar?.content,
cleanedModelContent]`, where `cleanedModelContent` applies
`.replace(/import .*\n/g, '')` to `template.grammar?.content`. -/
def templateSimilarities (sim : Embedding → Embedding → ℚ)
    (templateEmbeddings : List (String × TemplateData)) (promptEmbedding : Embedding)
    (provider : String) : List (ℚ × String × Option String × Option String) :=
  templateEmbeddings.filterMap fun kv =>
    (templateProviderEmbedding provider kv.2).map fun e =>
      (sim promptEmbedding e, kv.1, kv.2.grammar.map GrammarData.content,
        kv.2.grammar.map fun g => jsReplaceImportLines g.content)

/-- `topTemplates` of `fetchRelevantTemplates`. -/
def topTemplates (sim : Embedding → Embedding → ℚ)
    (templateEmbeddings : List (String × TemplateData)) (promptEmbedding : Embedding)
    (provider : String) (topN : Nat) : List (ℚ × String × Option String × Option String) :=
  (sortBySimDesc (templateSimilarities sim templateEmbeddings promptEmbedding provider)).take
    topN

/-- The rendering of one selected entry of `fetchRelevantTemplates`:
`` `Template: ${templateName}\nTemplate grammar: ${grammarContent}\nCorresponding model: ${modelContent}\n` ``. -/
def renderTemplateEntry (t : ℚ × String × Option String × Option String) : String :=
  "Template: " ++ t.2.1 ++ "\nTemplate grammar: " ++ jsStr t.2.2.1 ++
    "\nCorresponding model: " ++ jsStr t.2.2.2 ++ "\n"

/-- `fetchRelevantTemplates` (default `topN = 4`). -/
def fetchRelevantTemplates (sim : Embedding → Embedding → ℚ)
    (templateEmbeddings : List (String × TemplateData)) (promptEmbedding : Embedding)
    (provider : String) (topN : Nat := 4) : List String :=
  (topTemplates sim templateEmbeddings promptEmbedding provider topN).map
    renderTemplateEntry

/-- The `templateSimilarities` accumulation loop of `fetchRelevantGrammar`:
scored entries carry `[similarity, templateName, template.sample?.content,
template.grammar?.content]`. -/
def grammarSimilarities (sim : Embedding → Embedding → ℚ)
    (templateEmbeddings : List (String × TemplateData)) (promptEmbedding : Embedding)
    (provider : String) : List (ℚ × String × Option String × Option String) :=
  templateEmbeddings.filterMap fun kv =>
    (templateProviderEmbedding provider kv.2).map fun e =>
      (sim promptEmbedding e, kv.1, kv.2.sample.map SampleData.content,
        kv.2.grammar.map GrammarData.content)

/-- `topTemplates` of `fetchRelevantGrammar`. -/
def topGrammarTemplates (sim : Embedding → Embedding → ℚ)
    (templateEmbeddings : List (String × TemplateData)) (promptEmbedding : Embedding)
    (provider : String) (topN : Nat) : List (ℚ × String × Option String × Option String) :=
  (sortBySimDesc (grammarSimilarities sim templateEmbeddings promptEmbedding provider)).take
    topN

/-- `fetchRelevantGrammar` (default `topN = 3`): renders each selected entry
as `` `Template sample: ${sampleContent}\n and corresponding grammar: ${grammarContent}\n` ``. -/
def fetchRelevantGrammar (sim : Embedding → Embedding → ℚ)
    (templateEmbeddings : List (String × TemplateData)) (promptEmbedding : Embedding)
    (provider : String) (topN : Nat := 3) : List String :=
  (topGrammarTemplates sim templateEmbeddings promptEmbedding provider topN).map fun t =>
    "Template sample: " ++ jsStr t.2.2.1 ++ "\n and corresponding grammar: " ++
      jsStr t.2.2.2 ++ "\n"

/-! ## Namespace Mapper (`embeddingsUtils.ts`) -/

/-- JS regex `\w`: ASCII letters, digits, underscore. -/
def isJsWordChar (c : Char) : Bool := c.isAlphanum || c == '_'

/-- JS regex `\s` (the whitespace characters relevant at this abstraction
level). -/
def isJsSpace (c : Char) : Bool :=
  c == ' ' || c == '\t' || c == '\n' || c == '\r' || c == '\x0b' || c == '\x0c'

/-- The keyword alternatives of the extraction regex
`\b(?:asset|participant|enum|abstract asset)\s+(\w+)`, in alternation order.
No alternative is a prefix of another, so at most one can match at a given
position. -/
def nsKeywords : List (List Char) :=
  ["asset".data, "participant".data, "enum".data, "abstract asset".data]

/-- Try to match `kw` followed by `\s+(\w+)` at the head of `l`; on success
return the captured word and the remaining characters after the match.
`\s+` is greedy and `\w` never matches whitespace, so the greedy consumption
is exact (no backtracking can succeed where this fails). -/
def tryKeywordAt (kw : List Char) (l : List Char) : Option (List Char × List Char) :=
  if kw.isPrefixOf l then
    let r := l.drop kw.length
    let ws := r.takeWhile isJsSpace
    if ws.isEmpty then none
    else
      let r2 := r.drop ws.length
      let w := r2.takeWhile isJsWordChar
      if w.isEmpty then none
      else some (w, r2.drop w.length)
  else none

/-- Try the keyword alternatives in alternation order at the head of `l`. -/
def matchKeywordAt (l : List Char) : Option (List Char × List Char) :=
  nsKeywords.foldr (fun kw acc => (tryKeywordAt kw l).orElse fun _ => acc) none

/-- The `regex.exec` scan of `extractNamespaces`: at each position with a
word boundary before it (`atBoundary`), try the keyword match; on a match,
record the capture and resume right after the match (the character before the
resume point is the captured word's last character, a word character, so the
resume position is not at a word boundary).  On failure, advance one
character.  `fuel` starts at the list length; every step strictly shrinks the
list, so the scan is exact. -/
def scanNamespacesAux : Nat → List Char → Bool → List String
  | 0, _, _ => []
  | _ + 1, [], _ => []
  | fuel + 1, c :: rest, atBoundary =>
    match (if atBoundary then matchKeywordAt (c :: rest) else none) with
    | some (w, rest') => String.mk w :: scanNamespacesAux fuel rest' false
    | none => scanNamespacesAux fuel rest (!(isJsWordChar c))

/-- `extractNamespaces(fileContent)`: all captures of
`/\b(?:asset|participant|enum|abstract asset)\s+(\w+)/g`, in match order. -/
def extractNamespaces (fileContent : String) : List String :=
  scanNamespacesAux fileContent.data.length fileContent.data true

/-- JS object property assignment `m[k] = v` on a string-keyed object
modelled as an ordered association list: an existing key keeps its position
and is overwritten, a new key is appended. -/
def objInsert {β : Type} (m : List (String × β)) (k : String) (v : β) :
    List (String × β) :=
  if m.any fun p => p.1 == k then
    m.map fun p => if p.1 == k then (k, v) else p
  else m ++ [(k, v)]

/-- The loop body of `generateCTOImports` for one `[key, values]` entry:
exactly one extracted name appends the single-name import line, several names
append the brace-joined line (`values.join(', ')`), zero names append
nothing.  The "basename" is `key.replace(".cto", "")`, i.e. the *first*
occurrence of the substring `".cto"` removed. -/
def ctoImportStep (result : String) (kv : String × List String) : String :=
  if kv.2.length = 1 then
    result ++ "import org.accordproject." ++ jsReplaceFirst kv.1 ".cto" "" ++ "." ++
      kv.2.headD "" ++ " from https://models.accordproject.org/accordproject/" ++
      kv.1 ++ "\n"
  else if kv.2.length > 1 then
    result ++ "import org.accordproject." ++ jsReplaceFirst kv.1 ".cto" "" ++
      ".\x7b " ++ joinComma kv.2 ++
      " \x7d from https://models.accordproject.org/accordproject/" ++ kv.1 ++ "\n"
  else result

/-- `generateCTOImports(namespaceMappings)`: the accumulation loop over the
mapping's entries in iteration order. -/
def generateCTOImports (namespaceMappings : List (String × List String)) : String :=
  namespaceMappings.foldl ctoImportStep ""

/-- `getNamespaceMappings(modelEmbeddings)`: build the file-name-keyed object
of extracted namespaces, then synthesize the import block. -/
def getNamespaceMappings (modelEmbeddings : List (String × ModelEmbeddings)) : String :=
  generateCTOImports
    (modelEmbeddings.foldl
      (fun acc kv => objInsert acc kv.2.fileName (extractNamespaces kv.2.fileContent))
      [])

/-! ## Spec-side definitions (for refinement statements) -/

/-- Per-file import line following the specification's words (with the
basename as the code computes it, `filename.replace(".cto", "")`): exactly
one newline-terminated line for one extracted name, the brace-joined form
for several names (joined with `", "` in extraction order), and no line for
zero names. -/
def specImportLine (filename : String) : List String → String
  | [] => ""
  | [name] =>
    "import org.accordproject." ++ jsReplaceFirst filename ".cto" "" ++ "." ++ name ++
      " from https://models.accordproject.org/accordproject/" ++ filename ++ "\n"
  | names =>
    "import org.accordproject." ++ jsReplaceFirst filename ".cto" "" ++ ".\x7b " ++
      joinComma names ++ " \x7d from https://models.accordproject.org/accordproject/" ++
      filename ++ "\n"

/-- Concatenation of a list of strings in order. -/
def concatStrings : List String → String
  | [] => ""
  | s :: rest => s ++ concatStrings rest

/-! ## Helper lemmas -/

theorem ctoImportStep_eq_specImportLine (r : String) (kv : String × List String) :
    ctoImportStep r kv = r ++ specImportLine kv.1 kv.2 := by
  obtain ⟨k, vs⟩ := kv
  match vs with
  | [] => simp [ctoImportStep, specImportLine]
  | [v] => simp [ctoImportStep, specImportLine, String.append_assoc]
  | v1 :: v2 :: rest => simp [ctoImportStep, specImportLine, String.append_assoc]

theorem generateCTOImports_foldl (m : List (String × List String)) :
    ∀ acc : String, m.foldl ctoImportStep acc =
      acc ++ concatStrings (m.map fun kv => specImportLine kv.1 kv.2) := by
  induction m with
  | nil => intro acc; simp [concatStrings]
  | cons kv rest ih =>
    intro acc
    simp only [List.foldl_cons, List.map_cons, concatStrings]
    rw [ctoImportStep_eq_specImportLine, ih, String.append_assoc]

theorem sorted_sortBySimDesc {α : Type} (l : List (ℚ × α)) :
    List.Sorted simGE (sortBySimDesc l) :=
  List.sorted_insertionSort simGE l

theorem perm_sortBySimDesc {α : Type} (l : List (ℚ × α)) :
    List.Perm (sortBySimDesc l) l :=
  List.perm_insertionSort simGE l

theorem take_dominates_drop {α : Type} {l : List (ℚ × α)}
    (hs : List.Sorted simGE l) (n : Nat) :
    ∀ x ∈ l.take n, ∀ y ∈ l.drop n, y.1 ≤ x.1 := by
  intro x hx y hy
  have h := hs
  rw [← List.take_append_drop n l] at h
  exact (List.pairwise_append.1 h).2.2 x hx y hy

/-! ## Claim theorems -/

/-- C5: For an Inline request, the main content is split at `cursorPosition`:
`"abcdef"` with position 3 yields before `"abc"` and after `"def"`, and an
unset position defaults to end-of-content (before = full content,
after = `""`); the split is what `inlineRequestPrompt` hands to the inline
template renderer. -/
theorem inline_split_at_cursor :
    inlineSplit "abcdef" (some 3) = ("abc", "def") ∧
    (∀ content : String, inlineSplit content none = (content, "")) ∧
    inlineRequestPrompt ⟨⟨"abcdef", some 3⟩, none⟩
        ⟨RequestType.Inline, Language.Concerto, none⟩ =
      Prompt.concertoInline "abc" "def" ⟨RequestType.Inline, Language.Concerto, none⟩ := by
  refine ⟨by decide, fun content => ?_, by decide⟩
  obtain ⟨data⟩ := content
  simp [inlineSplit, strTake, strDrop, String.length]

/-- C10: A cursorPosition of 0 is falsy in JS, so the split behaves exactly
as if the position were unset: before is the entire content and after is
empty (not the other way around). -/
theorem inline_split_zero_cursor (content : String) :
    inlineSplit content (some 0) = inlineSplit content none ∧
    inlineSplit content (some 0) = (content, "") := by
  obtain ⟨data⟩ := content
  constructor <;> simp [inlineSplit, strTake, strDrop, String.length]

/-- C7: Namespace extraction returns the identifiers introduced by `asset`,
`participant`, `enum` and `abstract asset`, in order of appearance and
without de-duplication: the spec's example input yields exactly
`["Vehicle", "Driver"]`, the remaining keywords are recognised likewise, and
duplicate declarations are kept. -/
theorem extract_namespaces_order_and_duplicates :
    extractNamespaces "asset Vehicle \x7b\x7d participant Driver \x7b\x7d" =
      ["Vehicle", "Driver"] ∧
    extractNamespaces "enum Color \x7b\x7d abstract asset Base \x7b\x7d" =
      ["Color", "Base"] ∧
    extractNamespaces "asset Foo \x7b\x7d asset Foo \x7b\x7d" = ["Foo", "Foo"] := by
  refine ⟨?_, ?_, ?_⟩ <;> decide

/-- C8: A request type outside the five-member enumeration makes
`agentPlanner` fail with the `Unsupported request type` error; no template
renderer (no `Prompt` constructor) is produced. -/
theorem unsupported_request_type_rejected (params : AgentPlannerParams)
    (h : params.promptConfig.requestType ∉
      [RequestType.Inline, RequestType.Fix, RequestType.General, RequestType.Model,
        RequestType.Grammar]) :
    agentPlanner params = Except.error "Unsupported request type" := by
  simp only [List.mem_cons, List.not_mem_nil, or_false, not_or] at h
  obtain ⟨h1, h2, h3, h4, h5⟩ := h
  simp [agentPlanner, h1, h2, h3, h4, h5]

/-- Witness for C8 at the spec's example request type `"frobnicate"`. -/
theorem unsupported_request_type_rejected_witness :
    ("frobnicate" ∉
      [RequestType.Inline, RequestType.Fix, RequestType.General, RequestType.Model,
        RequestType.Grammar]) ∧
    agentPlanner ⟨⟨⟨"", none⟩, none⟩, ⟨"frobnicate", "concerto", none⟩,
        ⟨"openai", "", "", ""⟩⟩ =
      Except.error "Unsupported request type" :=
  ⟨by decide, unsupported_request_type_rejected _ (by decide)⟩

/-- A Model request whose context documents contain neither
`"grammar.tem.md"` nor `"package.json"`. -/
def missingDocsRequest : AgentPlannerParams :=
  ⟨⟨⟨"concerto model", none⟩, some []⟩, ⟨RequestType.Model, Language.Concerto, none⟩,
    ⟨"openai", "", "", ""⟩⟩

/-- C1 evaluation at the failing input: `modelRequestPrompt` calls
`generateEmbeddingPrompt(documents)` *without* the `requestType` argument, so
the extractor takes its catch-all branch and returns the empty query instead
of throwing; the planner then proceeds to the embedding network call (query
`""`) and renders the model template.  The second conjunct shows the check
the claim describes does exist in `generateEmbeddingPrompt`, but only on the
`'model'` branch that this call never reaches. -/
theorem model_request_missing_documents_not_caught :
    agentPlanner missingDocsRequest =
      Except.ok (Prompt.concertoModel missingDocsRequest.documents "" "openai") ∧
    generateEmbeddingPrompt missingDocsRequest.documents (some "model") =
      Except.error "Required documents are missing" := by
  constructor <;> decide

/-- C4 counterexample: with no `"sample.md"` among the context documents, the
grammar-request query is the JS interpolation of `undefined`, i.e. the
literal string `"undefined"`, not the empty string. -/
theorem grammar_query_missing_sample_counterexample :
    generateEmbeddingPrompt ⟨⟨"", none⟩, some []⟩ (some "grammar") =
      Except.ok "undefined" ∧
    generateEmbeddingPrompt ⟨⟨"", none⟩, some []⟩ (some "grammar") ≠
      Except.ok "" := by
  constructor <;> decide

/-- C4 (amended): for a grammar request the embedding query is exactly the
content of the context document named `"sample.md"` when that is present and
defined; when it is absent or its content is undefined, the query is the
literal string `"undefined"` (the JS template interpolation of `undefined`),
and no error is raised in either case. -/
theorem grammar_query_from_sample_document (documents : Documents) :
    (∀ c, findContent documents.contextDocuments "sample.md" = some c →
      generateEmbeddingPrompt documents (some "grammar") = Except.ok c) ∧
    (findContent documents.contextDocuments "sample.md" = none →
      generateEmbeddingPrompt documents (some "grammar") = Except.ok "undefined") := by
  constructor
  · intro c hc
    simp [generateEmbeddingPrompt, hc, jsStr]
  · intro hc
    simp [generateEmbeddingPrompt, hc, jsStr]

/-- Witness for C4 (amended): a present `sample.md` with content `"hello"`,
and an absent one. -/
theorem grammar_query_from_sample_document_witness :
    generateEmbeddingPrompt ⟨⟨"", none⟩, some [⟨"sample.md", some "hello"⟩]⟩
        (some "grammar") = Except.ok "hello" ∧
    generateEmbeddingPrompt ⟨⟨"", none⟩, some []⟩ (some "grammar") =
      Except.ok "undefined" :=
  ⟨(grammar_query_from_sample_document _).1 "hello" (by decide),
    (grammar_query_from_sample_document _).2 (by decide)⟩

/-- C6 counterexample: the code forms the "basename" with
`key.replace(".cto", "")`, which does not strip extensions other than
`".cto"`: for file `"b.txt"` the emitted line keeps `b.txt` in the namespace
position, where the claim requires extension-stripped `b`. -/
theorem cto_import_basename_counterexample :
    generateCTOImports [("b.txt", ["Vehicle"])] =
      "import org.accordproject.b.txt.Vehicle from https://models.accordproject.org/accordproject/b.txt\n" ∧
    generateCTOImports [("b.txt", ["Vehicle"])] ≠
      "import org.accordproject.b.Vehicle from https://models.accordproject.org/accordproject/b.txt\n" := by
  constructor <;> decide

/-- C6 (amended): import synthesis emits per file exactly one
newline-terminated line when exactly one name was extracted, the brace form
with names joined by `", "` in extraction order when more than one, and no
line for zero names — where the basename is the filename with its *first
occurrence of the substring `".cto"`* removed (other extensions are not
stripped).  The spec's concrete examples follow. -/
theorem cto_imports_per_file_lines :
    (∀ m : List (String × List String),
      generateCTOImports m = concatStrings (m.map fun kv => specImportLine kv.1 kv.2)) ∧
    generateCTOImports [("auto.cto", ["Vehicle"])] =
      "import org.accordproject.auto.Vehicle from https://models.accordproject.org/accordproject/auto.cto\n" ∧
    generateCTOImports [("auto.cto", ["Vehicle", "Driver"])] =
      "import org.accordproject.auto.\x7b Vehicle, Driver \x7d from https://models.accordproject.org/accordproject/auto.cto\n" ∧
    generateCTOImports [("empty.cto", [])] = "" := by
  refine ⟨fun m => ?_, by decide, by decide, by decide⟩
  simpa [generateCTOImports] using generateCTOImports_foldl m ""

/-- C2: Each ranking function returns at most `topN` entries; the selected
entries are ordered by non-increasing similarity (`simGE`); and — via the
permutation between the sorted list and the scored list — every selected
entry's similarity is at least the similarity of every scored entry that was
not selected (the entries beyond position `topN` of the sorted list).  The
rendered output is the elementwise rendering of the selected entries, so the
bounds carry over to it. -/
theorem ranking_bounded_and_sorted (sim : Embedding → Embedding → ℚ)
    (q : Embedding) (provider : String) (topN : Nat)
    (mcorpus : List (String × ModelEmbeddings))
    (tcorpus : List (String × TemplateData)) :
    ((fetchRelevantNamespaces sim mcorpus q provider topN).length ≤ topN ∧
      List.Sorted simGE (topNamespaces sim mcorpus q provider topN) ∧
      List.Perm (sortBySimDesc (namespaceSimilarities sim mcorpus q provider))
        (namespaceSimilarities sim mcorpus q provider) ∧
      ∀ x ∈ topNamespaces sim mcorpus q provider topN,
        ∀ y ∈ (sortBySimDesc (namespaceSimilarities sim mcorpus q provider)).drop topN,
          y.1 ≤ x.1) ∧
    ((fetchRelevantTemplates sim tcorpus q provider topN).length ≤ topN ∧
      List.Sorted simGE (topTemplates sim tcorpus q provider topN) ∧
      List.Perm (sortBySimDesc (templateSimilarities sim tcorpus q provider))
        (templateSimilarities sim tcorpus q provider) ∧
      ∀ x ∈ topTemplates sim tcorpus q provider topN,
        ∀ y ∈ (sortBySimDesc (templateSimilarities sim tcorpus q provider)).drop topN,
          y.1 ≤ x.1) ∧
    ((fetchRelevantGrammar sim tcorpus q provider topN).length ≤ topN ∧
      List.Sorted simGE (topGrammarTemplates sim tcorpus q provider topN) ∧
      List.Perm (sortBySimDesc (grammarSimilarities sim tcorpus q provider))
        (grammarSimilarities sim tcorpus q provider) ∧
      ∀ x ∈ topGrammarTemplates sim tcorpus q provider topN,
        ∀ y ∈ (sortBySimDesc (grammarSimilarities sim tcorpus q provider)).drop topN,
          y.1 ≤ x.1) := by
  refine ⟨⟨?_, ?_, ?_, ?_⟩, ⟨?_, ?_, ?_, ?_⟩, ⟨?_, ?_, ?_, ?_⟩⟩
  · simp only [fetchRelevantNamespaces, List.length_map, topNamespaces]
    exact List.length_take_le _ _
  · simp only [topNamespaces]
    exact List.Pairwise.sublist (List.take_sublist _ _) (sorted_sortBySimDesc _)
  · exact perm_sortBySimDesc _
  · simp only [topNamespaces]
    exact take_dominates_drop (sorted_sortBySimDesc _) topN
  · simp only [fetchRelevantTemplates, List.length_map, topTemplates]
    exact List.length_take_le _ _
  · simp only [topTemplates]
    exact List.Pairwise.sublist (List.take_sublist _ _) (sorted_sortBySimDesc _)
  · exact perm_sortBySimDesc _
  · simp only [topTemplates]
    exact take_dominates_drop (sorted_sortBySimDesc _) topN
  · simp only [fetchRelevantGrammar, List.length_map, topGrammarTemplates]
    exact List.length_take_le _ _
  · simp only [topGrammarTemplates]
    exact List.Pairwise.sublist (List.take_sublist _ _) (sorted_sortBySimDesc _)
  · exact perm_sortBySimDesc _
  · simp only [topGrammarTemplates]
    exact take_dominates_drop (sorted_sortBySimDesc _) topN

/-- C9 counterexample: a grammar whose content is a single `import` line with
no trailing newline.  The cleaning regex `/import .*\n/g` requires the
newline, so the line survives in the "Corresponding model" part of the
rendered output, although it is a line matching `import <anything until end
of line>`. -/
theorem import_line_not_stripped_counterexample :
    fetchRelevantTemplates dotProduct
        [("t", ⟨some ⟨"import foo", none, some [1]⟩, none⟩)] [1] "openai" 4 =
      ["Template: t\nTemplate grammar: import foo\nCorresponding model: import foo\n"] ∧
    fetchRelevantTemplates dotProduct
        [("t", ⟨some ⟨"import foo", none, some [1]⟩, none⟩)] [1] "openai" 4 ≠
      ["Template: t\nTemplate grammar: import foo\nCorresponding model: \n"] := by
  constructor <;> decide

/-- C9 (amended): every entry of the `fetchRelevantTemplates` output embeds
the template's grammar content verbatim and displays, as the "Corresponding
model", the grammar content with every *newline-terminated* `import ...`
occurrence removed (`/import .*\n/g` replaced by the empty string); a
final import line lacking a trailing newline is kept, as the last conjunct
shows. -/
theorem template_model_content_stripped :
    (∀ (sim : Embedding → Embedding → ℚ) (q : Embedding) (provider : String)
      (topN : Nat) (tcorpus : List (String × TemplateData)) (s : String),
      s ∈ fetchRelevantTemplates sim tcorpus q provider topN →
      ∃ name t, (name, t) ∈ tcorpus ∧
        s = "Template: " ++ name ++ "\nTemplate grammar: " ++
          jsStr (t.grammar.map GrammarData.content) ++ "\nCorresponding model: " ++
          jsStr (t.grammar.map fun g => jsReplaceImportLines g.content) ++ "\n") ∧
    jsReplaceImportLines "import a\nx" = "x" ∧
    jsReplaceImportLines "import a" = "import a" := by
  refine ⟨?_, by decide, by decide⟩
  intro sim q provider topN tcorpus s hs
  obtain ⟨tup, htup, rfl⟩ := List.mem_map.1 hs
  have htup2 : tup ∈ sortBySimDesc (templateSimilarities sim tcorpus q provider) :=
    List.mem_of_mem_take htup
  have htup3 : tup ∈ templateSimilarities sim tcorpus q provider :=
    (perm_sortBySimDesc _).mem_iff.1 htup2
  obtain ⟨kv, hkv, hmap⟩ := List.mem_filterMap.1 htup3
  obtain ⟨e, he, rfl⟩ := Option.map_eq_some'.1 hmap
  exact ⟨kv.1, kv.2, by simpa using hkv, rfl⟩

/-- Witness for C9 (amended) at a concrete one-template corpus whose grammar
is `"import a\nG"`: the rendered entry shows the grammar verbatim and the
model content with the import line stripped. -/
theorem template_model_content_stripped_witness :
    ("Template: t\nTemplate grammar: import a\nG\nCorresponding model: G\n" ∈
      fetchRelevantTemplates dotProduct
        [("t", ⟨some ⟨"import a\nG", none, some [1]⟩, none⟩)] [1] "openai" 4) ∧
    (∃ name t,
      (name, t) ∈
        [("t", (⟨some ⟨"import a\nG", none, some [1]⟩, none⟩ : TemplateData))] ∧
      "Template: t\nTemplate grammar: import a\nG\nCorresponding model: G\n" =
        "Template: " ++ name ++ "\nTemplate grammar: " ++
          jsStr (t.grammar.map GrammarData.content) ++ "\nCorresponding model: " ++
          jsStr (t.grammar.map fun g => jsReplaceImportLines g.content) ++ "\n") :=
  ⟨by decide,
    template_model_content_stripped.1 dotProduct [1] "openai" 4 _ _ (by decide)⟩

end ConcertoCopilot
